import Mathlib

/-!
Shallow embedding of the vehicle-inspection server handlers.

The persistent store is modelled as lists of rows (`DB`); each handler is a
pure function `DB → input → Nat → Except String result × DB`, where the `Nat`
argument is the wall clock (`new Date()`), and the returned `DB` is the
persisted state after the call.  SQL `WHERE` clauses become list filters on
the same boolean conditions, `ORDER BY` becomes a stable sort, `RETURNING`
becomes the constructed row.  Timestamps and dates are modelled as `Nat`
(milliseconds); generated serial ids come from per-table counters in `DB`.
-/

namespace VehicleInspection

/-- A row of the vehicles table. -/
structure Vehicle where
  id : Nat
  make : String
  model : String
  year : Int
  vin : String
  license_plate : String
  created_at : Nat
  updated_at : Nat
deriving DecidableEq, Repr

/-- A row of the inspectors table. -/
structure Inspector where
  id : Nat
  name : String
  employee_id : String
  created_at : Nat
  updated_at : Nat
deriving DecidableEq, Repr

/-- The inspection-item status enumeration: pass | fail | not_applicable. -/
inductive ItemStatus where
  | pass
  | fail
  | not_applicable
deriving DecidableEq, Repr

/-- A row of the inspections table.  `notes` is nullable (`Option`). -/
structure Inspection where
  id : Nat
  vehicle_id : Nat
  inspector_id : Nat
  inspection_date : Nat
  completed : Bool
  notes : Option String
  created_at : Nat
  updated_at : Nat
deriving DecidableEq, Repr

/-- A row of the inspection-items table.  `comments` is nullable. -/
structure InspectionItem where
  id : Nat
  inspection_id : Nat
  item_name : String
  status : ItemStatus
  comments : Option String
  created_at : Nat
  updated_at : Nat
deriving DecidableEq, Repr

/-- The persisted database state: the four tables plus the serial-id
counters that generate primary keys. -/
structure DB where
  vehicles : List Vehicle
  inspectors : List Inspector
  inspections : List Inspection
  inspection_items : List InspectionItem
  nextVehicleId : Nat
  nextInspectorId : Nat
  nextInspectionId : Nat
  nextItemId : Nat
deriving DecidableEq, Repr

/-- Semantics of the JavaScript expression `x || null` on a value of TS type
`string | null | undefined` (`none` = absent/undefined, `some none` = null,
`some (some s)` = the string `s`): every falsy value — undefined, null and
the empty string — collapses to null. -/
def jsOrNull : Option (Option String) → Option String
  | some (some s) => if s == "" then none else some s
  | _ => none

/-- Truthiness of a TS `string | undefined` value: undefined and the empty
string are falsy. -/
def jsTruthy : Option String → Bool
  | some s => s != ""
  | none => false

/-! ## Vehicle handlers -/

/-- Input of `createVehicle` (all fields required). -/
structure CreateVehicleInput where
  make : String
  model : String
  year : Int
  vin : String
  license_plate : String
deriving DecidableEq, Repr

/-- The insert step of `createVehicle`: a new row with a generated id and
`created_at = updated_at = now`, appended to the table. -/
def insertVehicle (db : DB) (input : CreateVehicleInput) (now : Nat) :
    Except String Vehicle × DB :=
  let v : Vehicle :=
    { id := db.nextVehicleId, make := input.make, model := input.model,
      year := input.year, vin := input.vin, license_plate := input.license_plate,
      created_at := now, updated_at := now }
  (.ok v, { db with vehicles := db.vehicles ++ [v],
                    nextVehicleId := db.nextVehicleId + 1 })

/-- The conflict-reporting step of `createVehicle`, applied to the result
of its combined vin-or-plate lookup: if any row matched, a conflict is
reported from the first such row — vin checked before license plate on
that row; otherwise the insert proceeds.  The fall-through to the insert
when the first matching row matches neither field is kept from the source
(it is unreachable, since the row got into the result by matching one). -/
def vehicleCreateConflict (db : DB) (input : CreateVehicleInput) (now : Nat) :
    List Vehicle → Except String Vehicle × DB
  | existingVehicle :: _ =>
    if existingVehicle.vin == input.vin then
      (.error ("Vehicle with VIN " ++ input.vin ++ " already exists"), db)
    else if existingVehicle.license_plate == input.license_plate then
      (.error ("Vehicle with license plate " ++ input.license_plate ++ " already exists"), db)
    else
      insertVehicle db input now
  | [] => insertVehicle db input now

/-- `createVehicle` (src/server/src/handlers/create_vehicle.ts): selects
the rows whose vin or license plate equals the input's (one combined
lookup) and runs the conflict check before inserting. -/
def createVehicle (db : DB) (input : CreateVehicleInput) (now : Nat) :
    Except String Vehicle × DB :=
  vehicleCreateConflict db input now
    (db.vehicles.filter (fun v => v.vin == input.vin || v.license_plate == input.license_plate))

/-- Input of `updateVehicle`: a sparse patch; `none` = field absent. -/
structure UpdateVehicleInput where
  id : Nat
  make : Option String := none
  model : Option String := none
  year : Option Int := none
  vin : Option String := none
  license_plate : Option String := none
deriving DecidableEq, Repr

/-- The `updateData` object of `updateVehicle`: every field present in the
patch (`!== undefined`) is applied, every absent field keeps the row's
value, and `updated_at` is set to the current time. -/
def applyVehiclePatch (input : UpdateVehicleInput) (now : Nat) (v : Vehicle) : Vehicle :=
  { v with
    make := input.make.getD v.make,
    model := input.model.getD v.model,
    year := input.year.getD v.year,
    vin := input.vin.getD v.vin,
    license_plate := input.license_plate.getD v.license_plate,
    updated_at := now }

/-- The update statement of `updateVehicle`: patch every row whose id
matches, return the (first) updated row. -/
def runVehicleUpdate (db : DB) (input : UpdateVehicleInput) (now : Nat)
    (existing : Vehicle) : Except String Vehicle × DB :=
  let patched := db.vehicles.map
    (fun v => if v.id == input.id then applyVehiclePatch input now v else v)
  (.ok (applyVehiclePatch input now existing), { db with vehicles := patched })

/-- The conflict-reporting step of `updateVehicle`, applied to the result
set of the conflict query: the first conflicting row is examined — vin
first, then license plate (each guarded by the truthiness of the supplied
field, as in the source) — and when neither error fires (or the result set
is empty) control falls through to the update. -/
def vehicleConflictCheck (db : DB) (input : UpdateVehicleInput) (now : Nat)
    (existing : Vehicle) : List Vehicle → Except String Vehicle × DB
  | conflict :: _ =>
    if jsTruthy input.vin && input.vin == some conflict.vin then
      (.error ("VIN " ++ input.vin.getD "" ++ " is already in use by another vehicle"), db)
    else if jsTruthy input.license_plate && input.license_plate == some conflict.license_plate then
      (.error ("License plate " ++ input.license_plate.getD "" ++ " is already in use by another vehicle"), db)
    else
      runVehicleUpdate db input now existing
  | [] => runVehicleUpdate db input now existing

/-- The body of `updateVehicle` once the vehicle was found.  When vin
and/or license_plate are supplied (truthy; `uniquenessConditions` nonempty
in the source), one conflict query runs, whose condition is `ne(id)` ANDed
with *all* the supplied field equalities (the source combines the per-field
conditions with `and(...)`); otherwise the patch is applied directly. -/
def vehicleExistingCase (db : DB) (input : UpdateVehicleInput) (now : Nat)
    (existing : Vehicle) : Except String Vehicle × DB :=
  if jsTruthy input.vin || jsTruthy input.license_plate then
    vehicleConflictCheck db input now existing (db.vehicles.filter (fun v =>
      v.id != input.id
      && (!jsTruthy input.vin || input.vin == some v.vin)
      && (!jsTruthy input.license_plate || input.license_plate == some v.license_plate)))
  else
    runVehicleUpdate db input now existing

/-- `updateVehicle` (src/unnamed/part_004): fails if the id does not exist;
otherwise runs the conflict check and then the sparse patch. -/
def updateVehicle (db : DB) (input : UpdateVehicleInput) (now : Nat) :
    Except String Vehicle × DB :=
  match db.vehicles.find? (fun v => v.id == input.id) with
  | none => (.error ("Vehicle with id " ++ toString input.id ++ " not found"), db)
  | some existing => vehicleExistingCase db input now existing

/-- `getVehicles` orders by `created_at` descending. -/
def vehicleCreatedDesc : Vehicle → Vehicle → Prop :=
  fun a b => b.created_at ≤ a.created_at

instance : DecidableRel vehicleCreatedDesc :=
  fun a b => Nat.decLe b.created_at a.created_at

instance : IsTotal Vehicle vehicleCreatedDesc :=
  ⟨fun a b => Nat.le_total b.created_at a.created_at⟩

instance : IsTrans Vehicle vehicleCreatedDesc :=
  ⟨fun _ _ _ h1 h2 => Nat.le_trans h2 h1⟩

/-- `getVehicles` (src/server/src/handlers/get_vehicles.ts): all vehicles,
ordered by `created_at` descending. -/
def getVehicles (db : DB) : List Vehicle :=
  db.vehicles.insertionSort vehicleCreatedDesc

/-- `deleteVehicle` (src/server/src/handlers/delete_vehicle.ts): fails if
the id does not exist, otherwise deletes the vehicle row; the cascade to
its inspections and their items is performed by the database constraints
(drizzle schema, described in the spec: vehicle_id→vehicles.id cascade
delete, inspection_id→inspections.id cascade delete). -/
def deleteVehicle (db : DB) (id : Nat) : Except String Bool × DB :=
  if db.vehicles.any (fun v => v.id == id) then
    let remainingInspections := db.inspections.filter (fun i => i.vehicle_id != id)
    let removedInspections := db.inspections.filter (fun i => i.vehicle_id == id)
    (.ok true,
     { db with
       vehicles := db.vehicles.filter (fun v => v.id != id),
       inspections := remainingInspections,
       inspection_items := db.inspection_items.filter
         (fun it => removedInspections.all (fun i => i.id != it.inspection_id)) })
  else
    (.error ("Vehicle with ID " ++ toString id ++ " not found"), db)

/-! ## Inspector handlers -/

/-- Input of `createInspector`. -/
structure CreateInspectorInput where
  name : String
  employee_id : String
deriving DecidableEq, Repr

/-- `createInspector` (src/unnamed/part_002): fails if the employee_id is
already taken, otherwise inserts. -/
def createInspector (db : DB) (input : CreateInspectorInput) (now : Nat) :
    Except String Inspector × DB :=
  if db.inspectors.any (fun i => i.employee_id == input.employee_id) then
    (.error ("Inspector with employee_id \"" ++ input.employee_id ++ "\" already exists"), db)
  else
    let i : Inspector :=
      { id := db.nextInspectorId, name := input.name, employee_id := input.employee_id,
        created_at := now, updated_at := now }
    (.ok i, { db with inspectors := db.inspectors ++ [i],
                      nextInspectorId := db.nextInspectorId + 1 })

/-- Input of `updateInspector`: a sparse patch. -/
structure UpdateInspectorInput where
  id : Nat
  name : Option String := none
  employee_id : Option String := none
deriving DecidableEq, Repr

/-- The `updateData` object of `updateInspector`. -/
def applyInspectorPatch (input : UpdateInspectorInput) (now : Nat) (i : Inspector) : Inspector :=
  { i with
    name := input.name.getD i.name,
    employee_id := input.employee_id.getD i.employee_id,
    updated_at := now }

/-- The body of `updateInspector` once the inspector was found: if
employee_id is supplied (truthy), fails when a different row already holds
that value; otherwise applies the sparse patch. -/
def inspectorExistingCase (db : DB) (input : UpdateInspectorInput) (now : Nat)
    (existing : Inspector) : Except String Inspector × DB :=
  if jsTruthy input.employee_id
      && db.inspectors.any (fun i =>
           input.employee_id == some i.employee_id && i.id != input.id) then
    (.error ("Inspector with employee ID " ++ input.employee_id.getD "" ++ " already exists"), db)
  else
    let patched := db.inspectors.map
      (fun i => if i.id == input.id then applyInspectorPatch input now i else i)
    (.ok (applyInspectorPatch input now existing), { db with inspectors := patched })

/-- `updateInspector` (src/unnamed/part_003): fails if the id does not
exist; otherwise runs the duplicate check and the sparse patch. -/
def updateInspector (db : DB) (input : UpdateInspectorInput) (now : Nat) :
    Except String Inspector × DB :=
  match db.inspectors.find? (fun i => i.id == input.id) with
  | none => (.error ("Inspector with ID " ++ toString input.id ++ " not found"), db)
  | some existing => inspectorExistingCase db input now existing

/-- `getInspectors` orders by `name` ascending. -/
def inspectorNameAsc : Inspector → Inspector → Prop :=
  fun a b => a.name ≤ b.name

instance : DecidableRel inspectorNameAsc :=
  fun a b => inferInstanceAs (Decidable (a.name ≤ b.name))

instance : IsTotal Inspector inspectorNameAsc :=
  ⟨fun a b => le_total a.name b.name⟩

instance : IsTrans Inspector inspectorNameAsc :=
  ⟨fun _ _ _ h1 h2 => le_trans h1 h2⟩

/-- `getInspectors` (src/server/src/handlers/get_inspectors.ts): all
inspectors, ordered alphabetically by name. -/
def getInspectors (db : DB) : List Inspector :=
  db.inspectors.insertionSort inspectorNameAsc

/-- `deleteInspector` (src/server/src/handlers/delete_inspector.ts): fails
if the id does not exist; enumerates the inspections referencing the
inspector and fails with a count-bearing message when there are any;
otherwise deletes the inspector row and returns success. -/
def deleteInspector (db : DB) (id : Nat) : Except String Bool × DB :=
  if db.inspectors.any (fun i => i.id == id) then
    let associatedInspections := db.inspections.filter (fun ins => ins.inspector_id == id)
    if associatedInspections.length > 0 then
      (.error ("Cannot delete inspector with id " ++ toString id ++ " because they have "
        ++ toString associatedInspections.length ++ " associated inspection(s)"), db)
    else
      (.ok true, { db with inspectors := db.inspectors.filter (fun i => i.id != id) })
  else
    (.error ("Inspector with id " ++ toString id ++ " not found"), db)

/-! ## Inspection handlers -/

/-- Input of `createInspection`.  The handler never reads `completed`; the
field models the override attempt named by the spec ("completed forced to
false regardless of input") — the validator file is not part of the
sources, so any value a caller could smuggle in is simply carried here and
ignored.  `notes` is `string | null | undefined`. -/
structure CreateInspectionInput where
  vehicle_id : Nat
  inspector_id : Nat
  inspection_date : Nat
  completed : Option Bool := none
  notes : Option (Option String) := none
deriving DecidableEq, Repr

/-- `createInspection` (src/server/src/handlers/create_inspection.ts):
validates the vehicle exists, then the inspector; inserts with
`completed: false` and `notes: input.notes || null`. -/
def createInspection (db : DB) (input : CreateInspectionInput) (now : Nat) :
    Except String Inspection × DB :=
  if db.vehicles.any (fun v => v.id == input.vehicle_id) then
    if db.inspectors.any (fun i => i.id == input.inspector_id) then
      let row : Inspection :=
        { id := db.nextInspectionId, vehicle_id := input.vehicle_id,
          inspector_id := input.inspector_id, inspection_date := input.inspection_date,
          completed := false, notes := jsOrNull input.notes,
          created_at := now, updated_at := now }
      (.ok row, { db with inspections := db.inspections ++ [row],
                          nextInspectionId := db.nextInspectionId + 1 })
    else
      (.error ("Inspector with id " ++ toString input.inspector_id ++ " does not exist"), db)
  else
    (.error ("Vehicle with id " ++ toString input.vehicle_id ++ " does not exist"), db)

/-- Input of `updateInspection`: a sparse patch; `notes` distinguishes
absent (`none`), explicit null (`some none`) and a string (`some (some s)`). -/
structure UpdateInspectionInput where
  id : Nat
  completed : Option Bool := none
  notes : Option (Option String) := none
deriving DecidableEq, Repr

/-- The `updateData` object of `updateInspection`: fields present
(`!== undefined`), explicit null included, are applied. -/
def applyInspectionPatch (input : UpdateInspectionInput) (now : Nat) (i : Inspection) : Inspection :=
  { i with
    completed := input.completed.getD i.completed,
    notes := input.notes.getD i.notes,
    updated_at := now }

/-- `updateInspection` (src/unnamed/part_002): issues the update statement
first (patching every row whose id matches — none when the id is absent)
and only then checks whether any row was updated, failing with not-found
when the result set is empty. -/
def updateInspection (db : DB) (input : UpdateInspectionInput) (now : Nat) :
    Except String Inspection × DB :=
  let matched := db.inspections.filter (fun i => i.id == input.id)
  let patched := db.inspections.map
    (fun i => if i.id == input.id then applyInspectionPatch input now i else i)
  let db2 : DB := { db with inspections := patched }
  match matched with
  | [] => (.error ("Inspection with id " ++ toString input.id ++ " not found"), db2)
  | i :: _ => (.ok (applyInspectionPatch input now i), db2)

/-! ## Inspection-item handlers -/

/-- One element of the `items` array of `createInspectionItems`. -/
structure CreateItemInput where
  item_name : String
  status : ItemStatus
  comments : Option (Option String) := none
deriving DecidableEq, Repr

/-- Input of `createInspectionItems`. -/
structure CreateInspectionItemsInput where
  inspection_id : Nat
  items : List CreateItemInput
deriving DecidableEq, Repr

/-- The rows produced by the bulk insert of `createInspectionItems`: one row
per provided item, ids generated sequentially, `comments: item.comments || null`. -/
def mkInsertedItems (baseId inspId now : Nat) : List CreateItemInput → List InspectionItem
  | [] => []
  | it :: rest =>
    { id := baseId, inspection_id := inspId, item_name := it.item_name,
      status := it.status, comments := jsOrNull it.comments,
      created_at := now, updated_at := now }
      :: mkInsertedItems (baseId + 1) inspId now rest

/-- `createInspectionItems` (src/server/src/handlers/create_inspection_items.ts):
validates the inspection exists (before anything else), returns `[]`
without writing when the items array is empty, otherwise bulk-inserts one
row per item and returns them. -/
def createInspectionItems (db : DB) (input : CreateInspectionItemsInput) (now : Nat) :
    Except String (List InspectionItem) × DB :=
  if db.inspections.any (fun i => i.id == input.inspection_id) then
    match input.items with
    | [] => (.ok [], db)
    | _ :: _ =>
      let rows := mkInsertedItems db.nextItemId input.inspection_id now input.items
      (.ok rows, { db with inspection_items := db.inspection_items ++ rows,
                           nextItemId := db.nextItemId + input.items.length })
  else
    (.error ("Inspection with id " ++ toString input.inspection_id ++ " not found"), db)

/-- Input of `updateInspectionItem`: a sparse patch. -/
structure UpdateInspectionItemInput where
  id : Nat
  status : Option ItemStatus := none
  comments : Option (Option String) := none
deriving DecidableEq, Repr

/-- The `updateData` object of `updateInspectionItem`. -/
def applyItemPatch (input : UpdateInspectionItemInput) (now : Nat) (it : InspectionItem) : InspectionItem :=
  { it with
    status := input.status.getD it.status,
    comments := input.comments.getD it.comments,
    updated_at := now }

/-- `updateInspectionItem` (src/unnamed/part_001): like `updateInspection`,
the update statement runs before the not-found check. -/
def updateInspectionItem (db : DB) (input : UpdateInspectionItemInput) (now : Nat) :
    Except String InspectionItem × DB :=
  let matched := db.inspection_items.filter (fun it => it.id == input.id)
  let patched := db.inspection_items.map
    (fun it => if it.id == input.id then applyItemPatch input now it else it)
  let db2 : DB := { db with inspection_items := patched }
  match matched with
  | [] => (.error ("Inspection item with id " ++ toString input.id ++ " not found"), db2)
  | it :: _ => (.ok (applyItemPatch input now it), db2)

/-! ## Reporting -/

/-- An inspection enriched with its vehicle, inspector and items (the
`InspectionWithDetails` shape). -/
structure InspectionWithDetails where
  inspection : Inspection
  vehicle : Vehicle
  inspector : Inspector
  items : List InspectionItem
deriving DecidableEq, Repr

/-- Recent inspections are ordered by `created_at` descending. -/
def inspectionCreatedDesc : Inspection → Inspection → Prop :=
  fun a b => b.created_at ≤ a.created_at

instance : DecidableRel inspectionCreatedDesc :=
  fun a b => Nat.decLe b.created_at a.created_at

instance : IsTotal Inspection inspectionCreatedDesc :=
  ⟨fun a b => Nat.le_total b.created_at a.created_at⟩

instance : IsTrans Inspection inspectionCreatedDesc :=
  ⟨fun _ _ _ h1 h2 => Nat.le_trans h2 h1⟩

/-- The inner join of an inspection with its vehicle and inspector plus the
lookup of its items: `none` when either foreign key does not resolve (the
row is then dropped by the join, as the SQL inner join does). -/
def joinDetails (db : DB) (i : Inspection) : Option InspectionWithDetails :=
  match db.vehicles.find? (fun v => v.id == i.vehicle_id),
        db.inspectors.find? (fun p => p.id == i.inspector_id) with
  | some v, some p =>
    some { inspection := i, vehicle := v, inspector := p,
           items := db.inspection_items.filter (fun it => it.inspection_id == i.id) }
  | _, _ => none

/-- The report record returned by `getInspectionReport`. -/
structure InspectionReport where
  total_inspections : Nat
  completed_inspections : Nat
  pending_inspections : Nat
  recent_inspections : List InspectionWithDetails
deriving DecidableEq, Repr

/-- `getInspectionReport` (src/server/src/handlers/get_inspection_report.ts):
counts all inspections and the completed ones, derives pending as the
difference, and separately fetches the 10 most recently created
inspections (inner-joined with vehicle and inspector, ordered by
`created_at` descending, limit 10), each enriched with its items. -/
def getInspectionReport (db : DB) : InspectionReport :=
  let total := db.inspections.length
  let completed := (db.inspections.filter (fun i => i.completed)).length
  { total_inspections := total,
    completed_inspections := completed,
    pending_inspections := total - completed,
    recent_inspections :=
      (((db.inspections.insertionSort inspectionCreatedDesc).filterMap
        (joinDetails db)).take 10) }

/-! ## Concrete fixtures used by witnesses and counterexamples -/

/-- A vehicle row with the given id, vin and plate; `created_at = updated_at = id`. -/
def testVehicleRow (i : Nat) (vin plate : String) : Vehicle :=
  { id := i, make := "Make", model := "Model", year := 2020, vin := vin,
    license_plate := plate, created_at := i, updated_at := i }

/-- An inspector row. -/
def testInspectorRow (i : Nat) (nm emp : String) : Inspector :=
  { id := i, name := nm, employee_id := emp, created_at := i, updated_at := i }

/-- An inspection row with no notes. -/
def testInspectionRow (i vid pid : Nat) (c : Bool) : Inspection :=
  { id := i, vehicle_id := vid, inspector_id := pid, inspection_date := i,
    completed := c, notes := none, created_at := i, updated_at := i }

/-- The empty database. -/
def emptyDB : DB :=
  { vehicles := [], inspectors := [], inspections := [], inspection_items := [],
    nextVehicleId := 1, nextInspectorId := 1, nextInspectionId := 1, nextItemId := 1 }

/-- Three vehicles with pairwise distinct vins and plates. -/
def dbThreeVehicles : DB :=
  { emptyDB with
    vehicles := [testVehicleRow 1 "VINA" "P1", testVehicleRow 2 "VINB" "P2",
                 testVehicleRow 3 "VINC" "P3"],
    nextVehicleId := 4 }

/-- Two vehicles such that a new input can collide on the plate with the
first row and on the vin with the second row. -/
def dbCrossConflict : DB :=
  { emptyDB with
    vehicles := [testVehicleRow 1 "VIN1" "PLTNEW", testVehicleRow 2 "VINNEW" "PLT2"],
    nextVehicleId := 3 }

/-- One vehicle, one inspector, two inspections (one completed). -/
def dbSample : DB :=
  { vehicles := [testVehicleRow 1 "VIN1" "P1"],
    inspectors := [testInspectorRow 1 "Ann" "EMP1"],
    inspections := [testInspectionRow 1 1 1 true, testInspectionRow 2 1 1 false],
    inspection_items := [],
    nextVehicleId := 2, nextInspectorId := 2, nextInspectionId := 3, nextItemId := 1 }

/-! ## Helper lemmas -/

/-- Patching exactly the rows a filter selects is the identity when the
filter selects nothing (an UPDATE whose WHERE clause matches no row leaves
the table unchanged). -/
theorem map_patch_eq_self_of_filter_nil {α : Type} (l : List α) (p : α → Bool) (f : α → α)
    (h : l.filter p = []) : l.map (fun x => if p x then f x else x) = l := by
  induction l with
  | nil => rfl
  | cons a t ih =>
    rw [List.filter_cons] at h
    by_cases hp : p a
    · simp [hp] at h
    · simp only [hp, if_neg, Bool.false_eq_true, ite_false] at h
      simp [hp, ih h]

/-- `find?` returns the head of the filtered list. -/
theorem find?_eq_head?_filter {α : Type} (l : List α) (p : α → Bool) :
    l.find? p = (l.filter p).head? := by
  induction l with
  | nil => rfl
  | cons a t ih =>
    by_cases hp : p a = true
    · rw [List.find?_cons_of_pos _ hp, List.filter_cons, if_pos hp, List.head?_cons]
    · rw [List.find?_cons_of_neg _ (by simpa using hp), List.filter_cons, if_neg hp, ih]

/-- If the patch preserves the selection predicate, patching the selected
rows maps the first selected row to its patched value. -/
theorem find?_map_patch {α : Type} (l : List α) (p : α → Bool) (f : α → α)
    (hf : ∀ x, p (f x) = p x) (a : α) (h : l.find? p = some a) :
    (l.map (fun x => if p x then f x else x)).find? p = some (f a) := by
  induction l with
  | nil => simp at h
  | cons b t ih =>
    by_cases hp : p b = true
    · have hab : a = b := by
        rw [List.find?_cons_of_pos _ hp] at h
        exact (Option.some.inj h).symm
      subst hab
      simp only [List.map_cons, if_pos hp]
      exact List.find?_cons_of_pos _ (by rw [hf]; exact hp)
    · rw [List.find?_cons_of_neg _ (by simpa using hp)] at h
      simp only [List.map_cons, if_neg hp]
      rw [List.find?_cons_of_neg _ (by simpa [hf] using hp)]
      exact ih h

/-! ## C2: failed calls leave the persisted state unchanged -/

/-- C2: For every handler and every starting state, if the handler throws an
error (not-found, conflict, or referential-integrity), the persisted state
after the call equals the state before the call — no row is inserted,
updated, or deleted.  This includes `updateInspection` and
`updateInspectionItem`, whose update statement runs before their not-found
check (the statement matches no row, so the table is unchanged), and
`createInspectionItems`, which checks the inspection's existence before its
bulk insert. -/
theorem handlers_error_state_unchanged (db : DB) (now : Nat) :
    (∀ (input : CreateVehicleInput) e, (createVehicle db input now).1 = Except.error e →
      (createVehicle db input now).2 = db)
  ∧ (∀ (input : CreateInspectorInput) e, (createInspector db input now).1 = Except.error e →
      (createInspector db input now).2 = db)
  ∧ (∀ (input : CreateInspectionInput) e, (createInspection db input now).1 = Except.error e →
      (createInspection db input now).2 = db)
  ∧ (∀ (input : CreateInspectionItemsInput) e, (createInspectionItems db input now).1 = Except.error e →
      (createInspectionItems db input now).2 = db)
  ∧ (∀ (input : UpdateVehicleInput) e, (updateVehicle db input now).1 = Except.error e →
      (updateVehicle db input now).2 = db)
  ∧ (∀ (input : UpdateInspectorInput) e, (updateInspector db input now).1 = Except.error e →
      (updateInspector db input now).2 = db)
  ∧ (∀ (input : UpdateInspectionInput) e, (updateInspection db input now).1 = Except.error e →
      (updateInspection db input now).2 = db)
  ∧ (∀ (input : UpdateInspectionItemInput) e, (updateInspectionItem db input now).1 = Except.error e →
      (updateInspectionItem db input now).2 = db)
  ∧ (∀ (id : Nat) e, (deleteVehicle db id).1 = Except.error e → (deleteVehicle db id).2 = db)
  ∧ (∀ (id : Nat) e, (deleteInspector db id).1 = Except.error e → (deleteInspector db id).2 = db) := by
  refine ⟨?_, ?_, ?_, ?_, ?_, ?_, ?_, ?_, ?_, ?_⟩
  · intro input e h
    unfold createVehicle at h ⊢
    rcases hfil : db.vehicles.filter
        (fun v => v.vin == input.vin || v.license_plate == input.license_plate) with _ | ⟨c, rest⟩
    · rw [hfil] at h
      simp [vehicleCreateConflict, insertVehicle] at h
    · rw [hfil] at h ⊢
      simp only [vehicleCreateConflict] at h ⊢
      by_cases h1 : (c.vin == input.vin) = true
      · rw [if_pos h1]
      · rw [if_neg h1] at h ⊢
        by_cases h2 : (c.license_plate == input.license_plate) = true
        · rw [if_pos h2]
        · rw [if_neg h2] at h
          simp [insertVehicle] at h
  · intro input e h
    unfold createInspector at h ⊢
    by_cases hx : db.inspectors.any (fun i => i.employee_id == input.employee_id) = true
    · simp [hx]
    · simp [hx] at h
  · intro input e h
    unfold createInspection at h ⊢
    by_cases hv : db.vehicles.any (fun v => v.id == input.vehicle_id) = true
    · by_cases hi : db.inspectors.any (fun i => i.id == input.inspector_id) = true
      · simp [hv, hi] at h
      · simp [hv, hi]
    · simp [hv]
  · intro input e h
    unfold createInspectionItems at h ⊢
    by_cases hx : db.inspections.any (fun i => i.id == input.inspection_id) = true
    · rcases hits : input.items with _ | ⟨it, rest⟩
      · rw [hits] at h
        simp [hx] at h
      · rw [hits] at h
        simp [hx] at h
    · simp [hx]
  · intro input e h
    rcases hfind : db.vehicles.find? (fun v => v.id == input.id) with _ | v0
    · have hstep : updateVehicle db input now
          = (Except.error ("Vehicle with id " ++ toString input.id ++ " not found"), db) := by
        unfold updateVehicle
        rw [hfind]
      rw [hstep]
    · have hstep : updateVehicle db input now = vehicleExistingCase db input now v0 := by
        unfold updateVehicle
        rw [hfind]
      rw [hstep] at h ⊢
      unfold vehicleExistingCase at h ⊢
      by_cases hck : (jsTruthy input.vin || jsTruthy input.license_plate) = true
      · rw [if_pos hck] at h ⊢
        rcases hconf : db.vehicles.filter (fun v =>
            v.id != input.id
            && (!jsTruthy input.vin || input.vin == some v.vin)
            && (!jsTruthy input.license_plate || input.license_plate == some v.license_plate))
            with _ | ⟨c, rest⟩
        · rw [hconf] at h
          simp [vehicleConflictCheck, runVehicleUpdate] at h
        · rw [hconf] at h ⊢
          simp only [vehicleConflictCheck] at h ⊢
          by_cases hc1 : (jsTruthy input.vin && input.vin == some c.vin) = true
          · rw [if_pos hc1]
          · rw [if_neg hc1] at h ⊢
            by_cases hc2 : (jsTruthy input.license_plate
                && input.license_plate == some c.license_plate) = true
            · rw [if_pos hc2]
            · rw [if_neg hc2] at h
              simp [runVehicleUpdate] at h
      · rw [if_neg hck] at h
        simp [runVehicleUpdate] at h
  · intro input e h
    rcases hfind : db.inspectors.find? (fun i => i.id == input.id) with _ | i0
    · have hstep : updateInspector db input now
          = (Except.error ("Inspector with ID " ++ toString input.id ++ " not found"), db) := by
        unfold updateInspector
        rw [hfind]
      rw [hstep]
    · have hstep : updateInspector db input now = inspectorExistingCase db input now i0 := by
        unfold updateInspector
        rw [hfind]
      rw [hstep] at h ⊢
      unfold inspectorExistingCase at h ⊢
      by_cases hdup : (jsTruthy input.employee_id
          && db.inspectors.any (fun i =>
               input.employee_id == some i.employee_id && i.id != input.id)) = true
      · rw [if_pos hdup]
      · rw [if_neg hdup] at h
        simp at h
  · intro input e h
    unfold updateInspection at h ⊢
    rcases hm : db.inspections.filter (fun i => i.id == input.id) with _ | ⟨i0, rest⟩
    · rw [hm] at h ⊢
      rw [map_patch_eq_self_of_filter_nil _ _ _ hm]
    · rw [hm] at h
      simp at h
  · intro input e h
    unfold updateInspectionItem at h ⊢
    rcases hm : db.inspection_items.filter (fun it => it.id == input.id) with _ | ⟨it0, rest⟩
    · rw [hm] at h ⊢
      rw [map_patch_eq_self_of_filter_nil _ _ _ hm]
    · rw [hm] at h
      simp at h
  · intro id e h
    unfold deleteVehicle at h ⊢
    by_cases hx : db.vehicles.any (fun v => v.id == id) = true
    · simp [hx] at h
    · simp [hx]
  · intro id e h
    unfold deleteInspector at h ⊢
    by_cases hx : db.inspectors.any (fun i => i.id == id) = true
    · by_cases hn : (db.inspections.filter (fun ins => ins.inspector_id == id)).length > 0
      · simp [hx, hn]
      · simp [hx, hn] at h
    · simp [hx]

/-- Witness for C2: deleting an absent inspector from the sample database
fails and leaves the state unchanged. -/
theorem handlers_error_state_unchanged_witness :
    (deleteInspector dbSample 7).2 = dbSample :=
  (handlers_error_state_unchanged dbSample 0).2.2.2.2.2.2.2.2.2 7
    ("Inspector with id 7 not found") (by rfl)

/-! ## C3: sparse-patch semantics of the update handlers -/

/-- On a successful `updateVehicle`, the returned row is the found row with
the patch applied, and the table is the pointwise-patched table. -/
theorem updateVehicle_ok (db : DB) (input : UpdateVehicleInput) (now : Nat) (v0 : Vehicle)
    (hfind : db.vehicles.find? (fun v => v.id == input.id) = some v0)
    (r : Vehicle) (h : (updateVehicle db input now).1 = Except.ok r) :
    r = applyVehiclePatch input now v0
    ∧ (updateVehicle db input now).2.vehicles
        = db.vehicles.map (fun v => if v.id == input.id then applyVehiclePatch input now v else v) := by
  have hstep : updateVehicle db input now = vehicleExistingCase db input now v0 := by
    unfold updateVehicle
    rw [hfind]
  rw [hstep] at h ⊢
  unfold vehicleExistingCase at h ⊢
  by_cases hck : (jsTruthy input.vin || jsTruthy input.license_plate) = true
  · rw [if_pos hck] at h ⊢
    rcases hconf : db.vehicles.filter (fun v =>
        v.id != input.id
        && (!jsTruthy input.vin || input.vin == some v.vin)
        && (!jsTruthy input.license_plate || input.license_plate == some v.license_plate))
        with _ | ⟨c, rest⟩
    · rw [hconf] at h ⊢
      simp only [vehicleConflictCheck] at h ⊢
      exact ⟨(Except.ok.inj h).symm, rfl⟩
    · rw [hconf] at h ⊢
      simp only [vehicleConflictCheck] at h ⊢
      by_cases hc1 : (jsTruthy input.vin && input.vin == some c.vin) = true
      · rw [if_pos hc1] at h
        simp at h
      · rw [if_neg hc1] at h ⊢
        by_cases hc2 : (jsTruthy input.license_plate
            && input.license_plate == some c.license_plate) = true
        · rw [if_pos hc2] at h
          simp at h
        · rw [if_neg hc2] at h ⊢
          exact ⟨(Except.ok.inj h).symm, rfl⟩
  · rw [if_neg hck] at h ⊢
    exact ⟨(Except.ok.inj h).symm, rfl⟩

/-- On a successful `updateInspector`, the returned row is the found row
with the patch applied, and the table is the pointwise-patched table. -/
theorem updateInspector_ok (db : DB) (input : UpdateInspectorInput) (now : Nat) (i0 : Inspector)
    (hfind : db.inspectors.find? (fun i => i.id == input.id) = some i0)
    (r : Inspector) (h : (updateInspector db input now).1 = Except.ok r) :
    r = applyInspectorPatch input now i0
    ∧ (updateInspector db input now).2.inspectors
        = db.inspectors.map (fun i => if i.id == input.id then applyInspectorPatch input now i else i) := by
  have hstep : updateInspector db input now = inspectorExistingCase db input now i0 := by
    unfold updateInspector
    rw [hfind]
  rw [hstep] at h ⊢
  unfold inspectorExistingCase at h ⊢
  by_cases hdup : (jsTruthy input.employee_id
      && db.inspectors.any (fun i =>
           input.employee_id == some i.employee_id && i.id != input.id)) = true
  · rw [if_pos hdup] at h
    simp at h
  · rw [if_neg hdup] at h ⊢
    exact ⟨(Except.ok.inj h).symm, rfl⟩

/-- `updateInspection` always persists the pointwise-patched table (the
update statement runs unconditionally). -/
theorem updateInspection_snd (db : DB) (input : UpdateInspectionInput) (now : Nat) :
    (updateInspection db input now).2.inspections
      = db.inspections.map (fun i => if i.id == input.id then applyInspectionPatch input now i else i) := by
  unfold updateInspection
  rcases hm : db.inspections.filter (fun i => i.id == input.id) with _ | ⟨j, rest⟩ <;> rw [hm]

/-- On a successful `updateInspection`, the returned row is the first
matching row with the patch applied. -/
theorem updateInspection_ok (db : DB) (input : UpdateInspectionInput) (now : Nat) (i0 : Inspection)
    (hfind : db.inspections.find? (fun i => i.id == input.id) = some i0)
    (r : Inspection) (h : (updateInspection db input now).1 = Except.ok r) :
    r = applyInspectionPatch input now i0 := by
  unfold updateInspection at h
  rw [find?_eq_head?_filter] at hfind
  rcases hm : db.inspections.filter (fun i => i.id == input.id) with _ | ⟨j, rest⟩
  · rw [hm] at hfind
    simp at hfind
  · rw [hm] at hfind h
    rw [List.head?_cons] at hfind
    have hj : j = i0 := Option.some.inj hfind
    subst hj
    exact (Except.ok.inj h).symm

/-- `updateInspectionItem` always persists the pointwise-patched table. -/
theorem updateInspectionItem_snd (db : DB) (input : UpdateInspectionItemInput) (now : Nat) :
    (updateInspectionItem db input now).2.inspection_items
      = db.inspection_items.map (fun it => if it.id == input.id then applyItemPatch input now it else it) := by
  unfold updateInspectionItem
  rcases hm : db.inspection_items.filter (fun it => it.id == input.id) with _ | ⟨j, rest⟩ <;> rw [hm]

/-- On a successful `updateInspectionItem`, the returned row is the first
matching row with the patch applied. -/
theorem updateInspectionItem_ok (db : DB) (input : UpdateInspectionItemInput) (now : Nat)
    (it0 : InspectionItem)
    (hfind : db.inspection_items.find? (fun it => it.id == input.id) = some it0)
    (r : InspectionItem) (h : (updateInspectionItem db input now).1 = Except.ok r) :
    r = applyItemPatch input now it0 := by
  unfold updateInspectionItem at h
  rw [find?_eq_head?_filter] at hfind
  rcases hm : db.inspection_items.filter (fun it => it.id == input.id) with _ | ⟨j, rest⟩
  · rw [hm] at hfind
    simp at hfind
  · rw [hm] at hfind h
    rw [List.head?_cons] at hfind
    have hj : j = it0 := Option.some.inj hfind
    subst hj
    exact (Except.ok.inj h).symm

/-- C3: For every successful update call (`updateVehicle`,
`updateInspector`, `updateInspection`, `updateInspectionItem`) on an
existing row, every field absent from the input patch keeps its previous
value, every field present in the patch (including an explicit null for a
nullable field such as notes or comments) is set to the supplied value,
`created_at` is unchanged, and `updated_at` is refreshed to the call time,
hence to a later value than before; the patched row is also the one
persisted under the patched id. -/
theorem update_handlers_sparse_patch (db : DB) (now : Nat) :
    (∀ (input : UpdateVehicleInput) (v0 r : Vehicle),
      db.vehicles.find? (fun v => v.id == input.id) = some v0 →
      (updateVehicle db input now).1 = Except.ok r →
        ((input.make = none → r.make = v0.make) ∧ ∀ x, input.make = some x → r.make = x)
      ∧ ((input.model = none → r.model = v0.model) ∧ ∀ x, input.model = some x → r.model = x)
      ∧ ((input.year = none → r.year = v0.year) ∧ ∀ x, input.year = some x → r.year = x)
      ∧ ((input.vin = none → r.vin = v0.vin) ∧ ∀ x, input.vin = some x → r.vin = x)
      ∧ ((input.license_plate = none → r.license_plate = v0.license_plate)
          ∧ ∀ x, input.license_plate = some x → r.license_plate = x)
      ∧ r.created_at = v0.created_at
      ∧ r.updated_at = now
      ∧ (v0.updated_at < now → v0.updated_at < r.updated_at)
      ∧ (updateVehicle db input now).2.vehicles.find? (fun w => w.id == input.id) = some r)
  ∧ (∀ (input : UpdateInspectorInput) (i0 r : Inspector),
      db.inspectors.find? (fun i => i.id == input.id) = some i0 →
      (updateInspector db input now).1 = Except.ok r →
        ((input.name = none → r.name = i0.name) ∧ ∀ x, input.name = some x → r.name = x)
      ∧ ((input.employee_id = none → r.employee_id = i0.employee_id)
          ∧ ∀ x, input.employee_id = some x → r.employee_id = x)
      ∧ r.created_at = i0.created_at
      ∧ r.updated_at = now
      ∧ (i0.updated_at < now → i0.updated_at < r.updated_at)
      ∧ (updateInspector db input now).2.inspectors.find? (fun w => w.id == input.id) = some r)
  ∧ (∀ (input : UpdateInspectionInput) (i0 r : Inspection),
      db.inspections.find? (fun i => i.id == input.id) = some i0 →
      (updateInspection db input now).1 = Except.ok r →
        ((input.completed = none → r.completed = i0.completed)
          ∧ ∀ x, input.completed = some x → r.completed = x)
      ∧ ((input.notes = none → r.notes = i0.notes) ∧ ∀ x, input.notes = some x → r.notes = x)
      ∧ r.vehicle_id = i0.vehicle_id
      ∧ r.inspector_id = i0.inspector_id
      ∧ r.inspection_date = i0.inspection_date
      ∧ r.created_at = i0.created_at
      ∧ r.updated_at = now
      ∧ (i0.updated_at < now → i0.updated_at < r.updated_at)
      ∧ (updateInspection db input now).2.inspections.find? (fun w => w.id == input.id) = some r)
  ∧ (∀ (input : UpdateInspectionItemInput) (it0 r : InspectionItem),
      db.inspection_items.find? (fun it => it.id == input.id) = some it0 →
      (updateInspectionItem db input now).1 = Except.ok r →
        ((input.status = none → r.status = it0.status) ∧ ∀ x, input.status = some x → r.status = x)
      ∧ ((input.comments = none → r.comments = it0.comments)
          ∧ ∀ x, input.comments = some x → r.comments = x)
      ∧ r.item_name = it0.item_name
      ∧ r.inspection_id = it0.inspection_id
      ∧ r.created_at = it0.created_at
      ∧ r.updated_at = now
      ∧ (it0.updated_at < now → it0.updated_at < r.updated_at)
      ∧ (updateInspectionItem db input now).2.inspection_items.find?
          (fun w => w.id == input.id) = some r) := by
  refine ⟨?_, ?_, ?_, ?_⟩
  · intro input v0 r hfind hok
    obtain ⟨hr, hsnd⟩ := updateVehicle_ok db input now v0 hfind r hok
    subst hr
    refine ⟨⟨?_, ?_⟩, ⟨?_, ?_⟩, ⟨?_, ?_⟩, ⟨?_, ?_⟩, ⟨?_, ?_⟩, ?_, ?_, ?_, ?_⟩
    · intro hn; simp [applyVehiclePatch, hn]
    · intro x hx; simp [applyVehiclePatch, hx]
    · intro hn; simp [applyVehiclePatch, hn]
    · intro x hx; simp [applyVehiclePatch, hx]
    · intro hn; simp [applyVehiclePatch, hn]
    · intro x hx; simp [applyVehiclePatch, hx]
    · intro hn; simp [applyVehiclePatch, hn]
    · intro x hx; simp [applyVehiclePatch, hx]
    · intro hn; simp [applyVehiclePatch, hn]
    · intro x hx; simp [applyVehiclePatch, hx]
    · simp [applyVehiclePatch]
    · simp [applyVehiclePatch]
    · intro hlt; simpa [applyVehiclePatch] using hlt
    · rw [hsnd]
      exact find?_map_patch _ _ _ (fun x => by simp [applyVehiclePatch]) v0 hfind
  · intro input i0 r hfind hok
    obtain ⟨hr, hsnd⟩ := updateInspector_ok db input now i0 hfind r hok
    subst hr
    refine ⟨⟨?_, ?_⟩, ⟨?_, ?_⟩, ?_, ?_, ?_, ?_⟩
    · intro hn; simp [applyInspectorPatch, hn]
    · intro x hx; simp [applyInspectorPatch, hx]
    · intro hn; simp [applyInspectorPatch, hn]
    · intro x hx; simp [applyInspectorPatch, hx]
    · simp [applyInspectorPatch]
    · simp [applyInspectorPatch]
    · intro hlt; simpa [applyInspectorPatch] using hlt
    · rw [hsnd]
      exact find?_map_patch _ _ _ (fun x => by simp [applyInspectorPatch]) i0 hfind
  · intro input i0 r hfind hok
    have hr := updateInspection_ok db input now i0 hfind r hok
    subst hr
    refine ⟨⟨?_, ?_⟩, ⟨?_, ?_⟩, ?_, ?_, ?_, ?_, ?_, ?_, ?_⟩
    · intro hn; simp [applyInspectionPatch, hn]
    · intro x hx; simp [applyInspectionPatch, hx]
    · intro hn; simp [applyInspectionPatch, hn]
    · intro x hx; simp [applyInspectionPatch, hx]
    · simp [applyInspectionPatch]
    · simp [applyInspectionPatch]
    · simp [applyInspectionPatch]
    · simp [applyInspectionPatch]
    · simp [applyInspectionPatch]
    · intro hlt; simpa [applyInspectionPatch] using hlt
    · rw [updateInspection_snd]
      exact find?_map_patch _ _ _ (fun x => by simp [applyInspectionPatch]) i0 hfind
  · intro input it0 r hfind hok
    have hr := updateInspectionItem_ok db input now it0 hfind r hok
    subst hr
    refine ⟨⟨?_, ?_⟩, ⟨?_, ?_⟩, ?_, ?_, ?_, ?_, ?_, ?_⟩
    · intro hn; simp [applyItemPatch, hn]
    · intro x hx; simp [applyItemPatch, hx]
    · intro hn; simp [applyItemPatch, hn]
    · intro x hx; simp [applyItemPatch, hx]
    · simp [applyItemPatch]
    · simp [applyItemPatch]
    · simp [applyItemPatch]
    · simp [applyItemPatch]
    · intro hlt; simpa [applyItemPatch] using hlt
    · rw [updateInspectionItem_snd]
      exact find?_map_patch _ _ _ (fun x => by simp [applyItemPatch]) it0 hfind

/-- Witness for C3: patching only `completed` on inspection 2 of the sample
database sets `completed` and leaves `notes` at its previous value. -/
theorem update_handlers_sparse_patch_witness :
    ∃ r : Inspection, (updateInspection dbSample { id := 2, completed := some true } 50).1
      = Except.ok r ∧ r.completed = true ∧ r.notes = none := by
  have h := (update_handlers_sparse_patch dbSample 50).2.2.1
    { id := 2, completed := some true } (testInspectionRow 2 1 1 false)
    (applyInspectionPatch { id := 2, completed := some true } 50 (testInspectionRow 2 1 1 false))
    (by decide) (by rfl)
  refine ⟨_, rfl, h.1.2 true rfl, ?_⟩
  rw [h.2.1.1 rfl]
  rfl

/-! ## C1: updateVehicle misses collisions when both unique fields are supplied -/

/-- C1 (divergence exhibited): on three vehicles with pairwise distinct
vins and plates, patching vehicle 3 with vehicle 1's vin and vehicle 2's
plate must, per the spec, fail with a conflict error and change nothing —
but the call succeeds and persists the row, leaving two vehicles with vin
"VINA" and two with plate "P2"; likewise, supplying both fields where only
the vin collides succeeds instead of failing.  The conflict query ANDs the
two field conditions (`and(ne(id), eq(vin), eq(plate))`), although the
source's own comment says "has the same VIN or license plate" and
`createVehicle` uses `or(...)`. -/
theorem updateVehicle_misses_cross_conflict :
    ((updateVehicle dbThreeVehicles
        { id := 3, vin := some "VINA", license_plate := some "P2" } 100).1
      = Except.ok { id := 3, make := "Make", model := "Model", year := 2020, vin := "VINA",
                    license_plate := "P2", created_at := 3, updated_at := 100 })
  ∧ (((updateVehicle dbThreeVehicles
        { id := 3, vin := some "VINA", license_plate := some "P2" } 100).2.vehicles.filter
        (fun v => v.vin == "VINA")).length = 2)
  ∧ (((updateVehicle dbThreeVehicles
        { id := 3, vin := some "VINA", license_plate := some "P2" } 100).2.vehicles.filter
        (fun v => v.license_plate == "P2")).length = 2)
  ∧ ((updateVehicle dbThreeVehicles
        { id := 3, vin := some "VINA", license_plate := some "PNEW" } 100).1
      = Except.ok { id := 3, make := "Make", model := "Model", year := 2020, vin := "VINA",
                    license_plate := "PNEW", created_at := 3, updated_at := 100 }) :=
  ⟨rfl, by decide, by decide, rfl⟩

/-! ## C9: list handlers return all rows, sorted -/

/-- C9: `getVehicles` returns every vehicle row exactly once (a permutation
of the table), sorted by `created_at` descending, and `getInspectors`
returns every inspector row exactly once, sorted by `name` ascending. -/
theorem list_handlers_all_rows_sorted (db : DB) :
    (getVehicles db).Perm db.vehicles
  ∧ List.Sorted vehicleCreatedDesc (getVehicles db)
  ∧ (getInspectors db).Perm db.inspectors
  ∧ List.Sorted inspectorNameAsc (getInspectors db) :=
  ⟨List.perm_insertionSort _ _, List.sorted_insertionSort _ _,
   List.perm_insertionSort _ _, List.sorted_insertionSort _ _⟩

/-! ## C7: deleteInspector -/

/-- C7: `deleteInspector` fails with not-found when the id is absent (state
unchanged); when the inspector exists and N ≥ 1 inspections reference it,
it fails with a message containing the exact count N and deletes nothing;
when zero inspections reference it, it deletes the inspector row and
returns success, touching no other table. -/
theorem deleteInspector_spec (db : DB) (id : Nat) :
    (db.inspectors.any (fun i => i.id == id) = false →
       (deleteInspector db id).1
         = Except.error ("Inspector with id " ++ toString id ++ " not found")
       ∧ (deleteInspector db id).2 = db)
  ∧ (db.inspectors.any (fun i => i.id == id) = true →
      (1 ≤ (db.inspections.filter (fun ins => ins.inspector_id == id)).length →
        (∃ a b, (deleteInspector db id).1 = Except.error
          (a ++ toString (db.inspections.filter (fun ins => ins.inspector_id == id)).length ++ b))
        ∧ (deleteInspector db id).2 = db)
      ∧ ((db.inspections.filter (fun ins => ins.inspector_id == id)).length = 0 →
        (deleteInspector db id).1 = Except.ok true
        ∧ (deleteInspector db id).2.inspectors = db.inspectors.filter (fun i => i.id != id)
        ∧ (deleteInspector db id).2.vehicles = db.vehicles
        ∧ (deleteInspector db id).2.inspections = db.inspections
        ∧ (deleteInspector db id).2.inspection_items = db.inspection_items)) := by
  constructor
  · intro hx
    unfold deleteInspector
    rw [if_neg (by simp [hx])]
    exact ⟨rfl, rfl⟩
  · intro hx
    constructor
    · intro hn
      unfold deleteInspector
      rw [if_pos hx, if_pos (by omega)]
      exact ⟨⟨"Cannot delete inspector with id " ++ toString id ++ " because they have ",
             " associated inspection(s)", rfl⟩, rfl⟩
    · intro hn
      unfold deleteInspector
      rw [if_pos hx, if_neg (by omega)]
      exact ⟨rfl, rfl, rfl, rfl, rfl⟩

/-- Witness for C7: inspector 1 of the sample database is referenced by two
inspections, so deleting it fails with a message carrying the count 2. -/
theorem deleteInspector_spec_witness :
    ∃ a b, (deleteInspector dbSample 1).1 = Except.error
      (a ++ toString (dbSample.inspections.filter (fun ins => ins.inspector_id == 1)).length ++ b) :=
  (((deleteInspector_spec dbSample 1).2 (by decide)).1 (by decide)).1

/-! ## C5: createInspection -/

/-- C5: `createInspection` fails with a vehicle-not-found error whenever
the vehicle is absent — with no assumption on the inspector, so this error
wins when both ids are invalid; fails with an inspector-not-found error
when the vehicle exists but the inspector does not; otherwise inserts a row
whose `completed` is false for every input (any supplied override value
included) and whose `notes` is null when omitted. -/
theorem createInspection_spec (db : DB) (input : CreateInspectionInput) (now : Nat) :
    (db.vehicles.any (fun v => v.id == input.vehicle_id) = false →
       (createInspection db input now).1
         = Except.error ("Vehicle with id " ++ toString input.vehicle_id ++ " does not exist")
       ∧ (createInspection db input now).2 = db)
  ∧ (db.vehicles.any (fun v => v.id == input.vehicle_id) = true →
      db.inspectors.any (fun i => i.id == input.inspector_id) = false →
       (createInspection db input now).1
         = Except.error ("Inspector with id " ++ toString input.inspector_id ++ " does not exist")
       ∧ (createInspection db input now).2 = db)
  ∧ (db.vehicles.any (fun v => v.id == input.vehicle_id) = true →
      db.inspectors.any (fun i => i.id == input.inspector_id) = true →
       ∃ row, (createInspection db input now).1 = Except.ok row
         ∧ row.completed = false
         ∧ (input.notes = none → row.notes = none)
         ∧ row.vehicle_id = input.vehicle_id
         ∧ row.inspector_id = input.inspector_id
         ∧ row.inspection_date = input.inspection_date
         ∧ row.created_at = now ∧ row.updated_at = now
         ∧ (createInspection db input now).2.inspections = db.inspections ++ [row]) := by
  refine ⟨?_, ?_, ?_⟩
  · intro hv
    unfold createInspection
    rw [if_neg (by simp [hv])]
    exact ⟨rfl, rfl⟩
  · intro hv hi
    unfold createInspection
    rw [if_pos hv, if_neg (by simp [hi])]
    exact ⟨rfl, rfl⟩
  · intro hv hi
    unfold createInspection
    rw [if_pos hv, if_pos hi]
    exact ⟨_, rfl, rfl, fun hn => by simp [jsOrNull, hn], rfl, rfl, rfl, rfl, rfl, rfl⟩

/-- Witness for C5: on the sample database, an input that attempts to
override `completed` with `true` still yields a row with `completed =
false` and null notes. -/
theorem createInspection_spec_witness :
    ∃ row, (createInspection dbSample
        { vehicle_id := 1, inspector_id := 1, inspection_date := 7,
          completed := some true, notes := none } 10).1 = Except.ok row
      ∧ row.completed = false ∧ row.notes = none := by
  obtain ⟨row, hok, hc, hn, -⟩ := (createInspection_spec dbSample
    { vehicle_id := 1, inspector_id := 1, inspection_date := 7,
      completed := some true, notes := none } 10).2.2 (by decide) (by decide)
  exact ⟨row, hok, hc, hn rfl⟩

/-! ## C6: createInspectionItems -/

/-- The bulk insert produces one row per item. -/
theorem mkInsertedItems_length (baseId inspId now : Nat) (l : List CreateItemInput) :
    (mkInsertedItems baseId inspId now l).length = l.length := by
  induction l generalizing baseId with
  | nil => rfl
  | cons a t ih => simp [mkInsertedItems, ih]

/-- Field-level description of the k-th row of the bulk insert. -/
theorem mkInsertedItems_get (baseId inspId now : Nat) (l : List CreateItemInput)
    (k : Nat) (hk : k < l.length) :
    (mkInsertedItems baseId inspId now l).get
        ⟨k, by rw [mkInsertedItems_length]; exact hk⟩
      = { id := baseId + k, inspection_id := inspId,
          item_name := (l.get ⟨k, hk⟩).item_name,
          status := (l.get ⟨k, hk⟩).status,
          comments := jsOrNull ((l.get ⟨k, hk⟩).comments),
          created_at := now, updated_at := now } := by
  induction l generalizing baseId k with
  | nil => exact absurd hk (by simp)
  | cons a t ih =>
    cases k with
    | zero => simp [mkInsertedItems]
    | succ m =>
      have hm : m < t.length := by simpa using hk
      have := ih (baseId + 1) m hm
      simp only [mkInsertedItems, List.get_cons_succ] at this ⊢
      rw [this]
      have harith : baseId + 1 + m = baseId + (m + 1) := by omega
      rw [harith]

/-- C6: `createInspectionItems` fails and writes nothing when the
inspection id does not exist — with no assumption on the items array, so
the empty array also fails then; returns `[]` and writes nothing when the
inspection exists and the items array is empty; and otherwise bulk-inserts
exactly one row per item (comments null when omitted, via `x || null`),
appends them to the items table only, and returns them. -/
theorem createInspectionItems_spec (db : DB) (input : CreateInspectionItemsInput) (now : Nat) :
    (db.inspections.any (fun i => i.id == input.inspection_id) = false →
       (createInspectionItems db input now).1
         = Except.error ("Inspection with id " ++ toString input.inspection_id ++ " not found")
       ∧ (createInspectionItems db input now).2 = db)
  ∧ (db.inspections.any (fun i => i.id == input.inspection_id) = true →
      input.items = [] →
       (createInspectionItems db input now).1 = Except.ok []
       ∧ (createInspectionItems db input now).2 = db)
  ∧ (db.inspections.any (fun i => i.id == input.inspection_id) = true →
      input.items ≠ [] →
       ∃ rows, (createInspectionItems db input now).1 = Except.ok rows
         ∧ rows.length = input.items.length
         ∧ (createInspectionItems db input now).2.inspection_items = db.inspection_items ++ rows
         ∧ (createInspectionItems db input now).2.vehicles = db.vehicles
         ∧ (createInspectionItems db input now).2.inspectors = db.inspectors
         ∧ (createInspectionItems db input now).2.inspections = db.inspections
         ∧ ∀ (k : Nat) (hk1 : k < rows.length) (hk2 : k < input.items.length),
             (rows.get ⟨k, hk1⟩).item_name = (input.items.get ⟨k, hk2⟩).item_name
             ∧ (rows.get ⟨k, hk1⟩).status = (input.items.get ⟨k, hk2⟩).status
             ∧ (rows.get ⟨k, hk1⟩).comments = jsOrNull ((input.items.get ⟨k, hk2⟩).comments)
             ∧ ((input.items.get ⟨k, hk2⟩).comments = none → (rows.get ⟨k, hk1⟩).comments = none)
             ∧ (rows.get ⟨k, hk1⟩).inspection_id = input.inspection_id) := by
  refine ⟨?_, ?_, ?_⟩
  · intro hx
    unfold createInspectionItems
    rw [if_neg (by simp [hx])]
    exact ⟨rfl, rfl⟩
  · intro hx hempty
    unfold createInspectionItems
    rw [if_pos hx, hempty]
    exact ⟨rfl, rfl⟩
  · intro hx hne
    have hstep : createInspectionItems db input now
        = (Except.ok (mkInsertedItems db.nextItemId input.inspection_id now input.items),
           { db with
             inspection_items := db.inspection_items ++ mkInsertedItems db.nextItemId input.inspection_id now input.items,
             nextItemId := db.nextItemId + input.items.length }) := by
      unfold createInspectionItems
      rw [if_pos hx]
      rcases hitems : input.items with _ | ⟨a, t⟩
      · exact absurd hitems hne
      · rfl
    refine ⟨_, by rw [hstep], mkInsertedItems_length _ _ _ _, by rw [hstep], by rw [hstep],
      by rw [hstep], by rw [hstep], ?_⟩
    intro k hk1 hk2
    have hget := mkInsertedItems_get db.nextItemId input.inspection_id now input.items k hk2
    have hrow : (mkInsertedItems db.nextItemId input.inspection_id now input.items).get ⟨k, hk1⟩
        = { id := db.nextItemId + k, inspection_id := input.inspection_id,
            item_name := (input.items.get ⟨k, hk2⟩).item_name,
            status := (input.items.get ⟨k, hk2⟩).status,
            comments := jsOrNull ((input.items.get ⟨k, hk2⟩).comments),
            created_at := now, updated_at := now } := hget
    rw [hrow]
    refine ⟨rfl, rfl, rfl, fun hn => ?_, rfl⟩
    rw [List.get_eq_getElem] at hn
    simp [jsOrNull, hn]

/-- Witness for C6: inserting two items (one with comments omitted) for
inspection 1 of the sample database returns two rows. -/
theorem createInspectionItems_spec_witness :
    ∃ rows, (createInspectionItems dbSample
        { inspection_id := 1,
          items := [{ item_name := "Brakes", status := ItemStatus.pass },
                    { item_name := "Lights", status := ItemStatus.fail,
                      comments := some (some "dim") }] } 20).1 = Except.ok rows
      ∧ rows.length = 2 := by
  obtain ⟨rows, hok, hlen, -⟩ := (createInspectionItems_spec dbSample
    { inspection_id := 1,
      items := [{ item_name := "Brakes", status := ItemStatus.pass },
                { item_name := "Lights", status := ItemStatus.fail,
                  comments := some (some "dim") }] } 20).2.2 (by decide) (by decide)
  exact ⟨rows, hok, hlen⟩

/-! ## C4: createVehicle conflict reporting -/

/-- C4 counterexample: when the new vehicle's plate collides with the first
table row and its vin with the second, the error reported is the license
plate collision, not the VIN collision the claim requires. -/
theorem createVehicle_cross_conflict_reports_plate :
    (createVehicle dbCrossConflict
        { make := "Make", model := "Model", year := 2021,
          vin := "VINNEW", license_plate := "PLTNEW" } 9).1
      = Except.error ("Vehicle with license plate PLTNEW already exists")
  ∧ (createVehicle dbCrossConflict
        { make := "Make", model := "Model", year := 2021,
          vin := "VINNEW", license_plate := "PLTNEW" } 9).1
      ≠ Except.error ("Vehicle with VIN VINNEW already exists") := by
  refine ⟨rfl, ?_⟩
  intro hcon
  have hmsg : ("Vehicle with license plate PLTNEW already exists" : String)
      = "Vehicle with VIN VINNEW already exists" := Except.error.inj hcon
  exact absurd hmsg (by decide)

/-- C4 amended: `createVehicle` fails with state unchanged iff some row
collides on vin or license plate.  The reported error is determined by the
FIRST matching row in table order: that row's vin is compared first, so a
double collision with the same row reports the VIN; when the two fields
collide with different rows, the reported field is whichever the earlier
row matches.  With no collision it inserts and returns the new row with a
generated id and `created_at = updated_at = now`. -/
theorem createVehicle_spec (db : DB) (input : CreateVehicleInput) (now : Nat) :
    (db.vehicles.find? (fun v => v.vin == input.vin || v.license_plate == input.license_plate) = none →
       ∃ v, (createVehicle db input now).1 = Except.ok v
         ∧ v.id = db.nextVehicleId
         ∧ v.make = input.make ∧ v.model = input.model ∧ v.year = input.year
         ∧ v.vin = input.vin ∧ v.license_plate = input.license_plate
         ∧ v.created_at = now ∧ v.updated_at = now
         ∧ (createVehicle db input now).2.vehicles = db.vehicles ++ [v]
         ∧ (createVehicle db input now).2.nextVehicleId = db.nextVehicleId + 1)
  ∧ (∀ c, db.vehicles.find? (fun v => v.vin == input.vin || v.license_plate == input.license_plate) = some c →
       (createVehicle db input now).2 = db
       ∧ (c.vin = input.vin →
           (createVehicle db input now).1
             = Except.error ("Vehicle with VIN " ++ input.vin ++ " already exists"))
       ∧ (c.vin ≠ input.vin →
           (createVehicle db input now).1
             = Except.error ("Vehicle with license plate " ++ input.license_plate ++ " already exists"))) := by
  constructor
  · intro hnone
    rw [find?_eq_head?_filter, List.head?_eq_none_iff] at hnone
    have hstep : createVehicle db input now = insertVehicle db input now := by
      unfold createVehicle
      rw [hnone]
      rfl
    rw [hstep]
    unfold insertVehicle
    exact ⟨_, rfl, rfl, rfl, rfl, rfl, rfl, rfl, rfl, rfl, rfl, rfl⟩
  · intro c hsome
    rw [find?_eq_head?_filter] at hsome
    rcases hfil : db.vehicles.filter
        (fun v => v.vin == input.vin || v.license_plate == input.license_plate) with _ | ⟨c', rest⟩
    · rw [hfil] at hsome
      simp at hsome
    · rw [hfil] at hsome
      rw [List.head?_cons] at hsome
      have hcc : c' = c := Option.some.inj hsome
      rw [hcc] at hfil
      have hmem : c ∈ db.vehicles.filter
          (fun v => v.vin == input.vin || v.license_plate == input.license_plate) := by
        rw [hfil]
        exact List.mem_cons_self c rest
      have hc : (c.vin == input.vin || c.license_plate == input.license_plate) = true :=
        (List.mem_filter.mp hmem).2
      have hstep : createVehicle db input now = vehicleCreateConflict db input now (c :: rest) := by
        unfold createVehicle
        rw [hfil]
      by_cases h1 : (c.vin == input.vin) = true
      · have h1' : c.vin = input.vin := by simpa using h1
        refine ⟨?_, fun _ => ?_, fun hne => absurd h1' hne⟩
        · rw [hstep]
          simp only [vehicleCreateConflict]
          rw [if_pos h1]
        · rw [hstep]
          simp only [vehicleCreateConflict]
          rw [if_pos h1]
      · have h2 : (c.license_plate == input.license_plate) = true := by
          rcases (Bool.or_eq_true _ _).mp hc with h | h
          · exact absurd h h1
          · exact h
        have h1' : c.vin ≠ input.vin := by simpa using h1
        refine ⟨?_, fun heq => absurd heq h1', fun _ => ?_⟩
        · rw [hstep]
          simp only [vehicleCreateConflict]
          rw [if_neg h1, if_pos h2]
        · rw [hstep]
          simp only [vehicleCreateConflict]
          rw [if_neg h1, if_pos h2]

/-- Witness for C4 (amended): both fields colliding with the same row (row
1 of the three-vehicle database) reports the VIN collision; a fresh pair of
fields inserts. -/
theorem createVehicle_spec_witness :
    (createVehicle dbThreeVehicles
        { make := "Make", model := "Model", year := 2021,
          vin := "VINA", license_plate := "P1" } 9).1
      = Except.error ("Vehicle with VIN VINA already exists")
  ∧ ∃ v, (createVehicle dbThreeVehicles
        { make := "Make", model := "Model", year := 2021,
          vin := "VIND", license_plate := "P4" } 9).1 = Except.ok v ∧ v.id = 4 := by
  constructor
  · exact ((createVehicle_spec dbThreeVehicles
      { make := "Make", model := "Model", year := 2021,
        vin := "VINA", license_plate := "P1" } 9).2
      (testVehicleRow 1 "VINA" "P1") (by decide)).2.1 rfl
  · obtain ⟨v, hok, hid, -⟩ := (createVehicle_spec dbThreeVehicles
      { make := "Make", model := "Model", year := 2021,
        vin := "VIND", license_plate := "P4" } 9).1 (by decide)
    exact ⟨v, hok, hid⟩

/-! ## C10: empty strings for nullable text fields are stored as null -/

/-- C10: `x || null` collapses a provided empty string to null:
`createInspection` with `notes = ""` inserts null notes (and the call is
indistinguishable from one omitting notes), and `createInspectionItems`
with an item whose `comments = ""` inserts null comments for that row. -/
theorem empty_string_stored_as_null (db : DB) (now : Nat) :
    (∀ (input : CreateInspectionInput) row,
      input.notes = some (some "") →
      (createInspection db input now).1 = Except.ok row → row.notes = none)
  ∧ (∀ (input : CreateInspectionInput),
      createInspection db { input with notes := some (some "") } now
        = createInspection db { input with notes := none } now)
  ∧ (∀ (input : CreateInspectionItemsInput) rows (k : Nat)
       (hk1 : k < rows.length) (hk2 : k < input.items.length),
      (input.items.get ⟨k, hk2⟩).comments = some (some "") →
      (createInspectionItems db input now).1 = Except.ok rows →
      (rows.get ⟨k, hk1⟩).comments = none) := by
  refine ⟨?_, ?_, ?_⟩
  · intro input row hn h
    unfold createInspection at h
    by_cases hv : (db.vehicles.any fun v => v.id == input.vehicle_id) = true
    · rw [if_pos hv] at h
      by_cases hi : (db.inspectors.any fun i => i.id == input.inspector_id) = true
      · rw [if_pos hi] at h
        have hrow := Except.ok.inj h
        rw [← hrow]
        simp [jsOrNull, hn]
      · rw [if_neg hi] at h
        simp at h
    · rw [if_neg hv] at h
      simp at h
  · intro input
    unfold createInspection
    simp [jsOrNull]
  · intro input rows k hk1 hk2 hcom h
    by_cases hx : (db.inspections.any fun i => i.id == input.inspection_id) = true
    · rcases hitems : input.items with _ | ⟨a, t⟩
      · rw [hitems] at hk2
        simp at hk2
      · have hstep : (createInspectionItems db input now).1
            = Except.ok (mkInsertedItems db.nextItemId input.inspection_id now input.items) := by
          unfold createInspectionItems
          rw [if_pos hx]
          rcases hitems2 : input.items with _ | ⟨b, u⟩
          · rw [hitems2] at hitems
            cases hitems
          · rfl
        rw [hstep] at h
        obtain rfl := Except.ok.inj h
        have hget := mkInsertedItems_get db.nextItemId input.inspection_id now input.items k hk2
        have hrow : (mkInsertedItems db.nextItemId input.inspection_id now input.items).get ⟨k, hk1⟩
            = { id := db.nextItemId + k, inspection_id := input.inspection_id,
                item_name := (input.items.get ⟨k, hk2⟩).item_name,
                status := (input.items.get ⟨k, hk2⟩).status,
                comments := jsOrNull ((input.items.get ⟨k, hk2⟩).comments),
                created_at := now, updated_at := now } := hget
        rw [hrow]
        rw [List.get_eq_getElem] at hcom
        simp [jsOrNull, hcom]
    · unfold createInspectionItems at h
      rw [if_neg hx] at h
      simp at h

/-- Witness for C10: on the sample database, creating an inspection with
notes explicitly set to the empty string stores null notes. -/
theorem empty_string_stored_as_null_witness :
    ∃ row, (createInspection dbSample
        { vehicle_id := 1, inspector_id := 1, inspection_date := 7,
          notes := some (some "") } 10).1 = Except.ok row ∧ row.notes = none := by
  refine ⟨_, rfl, ?_⟩
  exact (empty_string_stored_as_null dbSample 10).1
    { vehicle_id := 1, inspector_id := 1, inspection_date := 7, notes := some (some "") }
    _ rfl rfl

/-! ## C8: getInspectionReport -/

/-- What a successful join row contains: the inspection itself, the rows
its two foreign keys resolve to, and its filtered items. -/
theorem joinDetails_some_fields (db : DB) (i : Inspection) (d : InspectionWithDetails)
    (h : joinDetails db i = some d) :
    d.inspection = i
    ∧ db.vehicles.find? (fun v => v.id == i.vehicle_id) = some d.vehicle
    ∧ db.inspectors.find? (fun p => p.id == i.inspector_id) = some d.inspector
    ∧ d.items = db.inspection_items.filter (fun it => it.inspection_id == i.id) := by
  unfold joinDetails at h
  rcases hvf : db.vehicles.find? (fun v => v.id == i.vehicle_id) with _ | v <;> rw [hvf] at h
  · simp at h
  · rcases hpf : db.inspectors.find? (fun p => p.id == i.inspector_id) with _ | p <;>
      rw [hpf] at h
    · simp at h
    · have hd := Option.some.inj h
      subst hd
      exact ⟨rfl, hvf, hpf, rfl⟩

/-- When the two foreign keys of an inspection resolve, the join succeeds. -/
theorem joinDetails_isSome (db : DB) (i : Inspection)
    (hv : db.vehicles.any (fun v => v.id == i.vehicle_id) = true)
    (hp : db.inspectors.any (fun p => p.id == i.inspector_id) = true) :
    ∃ d, joinDetails db i = some d := by
  have hv' : (db.vehicles.find? (fun v => v.id == i.vehicle_id)).isSome := by
    rw [List.find?_isSome]
    exact List.any_eq_true.mp hv
  have hp' : (db.inspectors.find? (fun p => p.id == i.inspector_id)).isSome := by
    rw [List.find?_isSome]
    exact List.any_eq_true.mp hp
  obtain ⟨v, hvf⟩ := Option.isSome_iff_exists.mp hv'
  obtain ⟨p, hpf⟩ := Option.isSome_iff_exists.mp hp'
  refine ⟨⟨i, v, p, db.inspection_items.filter (fun it => it.inspection_id == i.id)⟩, ?_⟩
  unfold joinDetails
  rw [hvf, hpf]

/-- When the join succeeds on every element, `filterMap` drops nothing:
projecting the inspection back out returns the original list. -/
theorem filterMap_joinDetails_sections (db : DB) (l : List Inspection)
    (H : ∀ i ∈ l, ∃ d, joinDetails db i = some d) :
    (l.filterMap (joinDetails db)).map (fun d => d.inspection) = l
    ∧ (l.filterMap (joinDetails db)).length = l.length := by
  induction l with
  | nil => exact ⟨rfl, rfl⟩
  | cons a t ih =>
    obtain ⟨d, hd⟩ := H a (List.mem_cons_self a t)
    have ht := ih (fun i hi => H i (List.mem_cons_of_mem a hi))
    constructor
    · simp [List.filterMap_cons, hd, (joinDetails_some_fields db a d hd).1, ht.1]
    · simp [List.filterMap_cons, hd, ht.2]

/-- C8: `getInspectionReport` returns the total inspection count, the
count of completed ones, pending as their difference, and as recent
activity the (at most) 10 latest-created inspections in descending
creation order, each enriched with its vehicle, inspector and items.
The hypothesis says every inspection's two foreign keys resolve — the
well-formedness every handler maintains — so the inner join drops no row.
On an empty database all counts are zero and the recent list is empty, as
the length clause forces. -/
theorem getInspectionReport_spec (db : DB)
    (hwf : ∀ i ∈ db.inspections,
      db.vehicles.any (fun v => v.id == i.vehicle_id) = true
      ∧ db.inspectors.any (fun p => p.id == i.inspector_id) = true) :
    (getInspectionReport db).total_inspections = db.inspections.length
  ∧ (getInspectionReport db).completed_inspections
      = (db.inspections.filter (fun i => i.completed)).length
  ∧ (getInspectionReport db).pending_inspections
      = db.inspections.length - (db.inspections.filter (fun i => i.completed)).length
  ∧ (getInspectionReport db).recent_inspections.length = min 10 db.inspections.length
  ∧ (∃ l : List Inspection, l.Perm db.inspections ∧ List.Sorted inspectionCreatedDesc l
      ∧ (getInspectionReport db).recent_inspections.map (fun d => d.inspection) = l.take 10)
  ∧ (∀ d ∈ (getInspectionReport db).recent_inspections,
      db.vehicles.find? (fun v => v.id == d.inspection.vehicle_id) = some d.vehicle
      ∧ db.inspectors.find? (fun p => p.id == d.inspection.inspector_id) = some d.inspector
      ∧ d.items = db.inspection_items.filter (fun it => it.inspection_id == d.inspection.id)) := by
  have hperm : (db.inspections.insertionSort inspectionCreatedDesc).Perm db.inspections :=
    List.perm_insertionSort _ _
  have H : ∀ i ∈ db.inspections.insertionSort inspectionCreatedDesc,
      ∃ d, joinDetails db i = some d := by
    intro i hi
    have hmem : i ∈ db.inspections := hperm.mem_iff.mp hi
    exact joinDetails_isSome db i (hwf i hmem).1 (hwf i hmem).2
  obtain ⟨hmap, hlen⟩ := filterMap_joinDetails_sections db _ H
  refine ⟨rfl, rfl, rfl, ?_, ?_, ?_⟩
  · show (((db.inspections.insertionSort inspectionCreatedDesc).filterMap
        (joinDetails db)).take 10).length = min 10 db.inspections.length
    rw [List.length_take, hlen, hperm.length_eq]
  · refine ⟨db.inspections.insertionSort inspectionCreatedDesc, hperm,
      List.sorted_insertionSort _ _, ?_⟩
    show (((db.inspections.insertionSort inspectionCreatedDesc).filterMap
        (joinDetails db)).take 10).map (fun d => d.inspection)
      = (db.inspections.insertionSort inspectionCreatedDesc).take 10
    rw [List.map_take, hmap]
  · intro d hd
    have hd' : d ∈ (db.inspections.insertionSort inspectionCreatedDesc).filterMap
        (joinDetails db) := List.mem_of_mem_take hd
    obtain ⟨i, hi, hji⟩ := List.mem_filterMap.mp hd'
    obtain ⟨hins, hvf, hpf, hitems⟩ := joinDetails_some_fields db i d hji
    subst hins
    exact ⟨hvf, hpf, hitems⟩

/-- Witness for C8: the sample database (two inspections, one completed,
all foreign keys valid) yields total 2, completed 1, pending 1 and two
recent entries. -/
theorem getInspectionReport_spec_witness :
    (getInspectionReport dbSample).total_inspections = dbSample.inspections.length
  ∧ (getInspectionReport dbSample).completed_inspections
      = (dbSample.inspections.filter (fun i => i.completed)).length
  ∧ (getInspectionReport dbSample).recent_inspections.length
      = min 10 dbSample.inspections.length := by
  have h := getInspectionReport_spec dbSample (by decide)
  exact ⟨h.1, h.2.1, h.2.2.2.1⟩

end VehicleInspection
